import Mathlib

/-
Shallow embedding of the BOOK_BUDDY backend business-logic layer.

The relational store is modelled as a `List Book` / `List User`; SQLAlchemy
queries become list filters and `find?`. Dates are modelled as `Nat` ordinals
(only `<`, `=` comparisons are used by the code). Pydantic's partial-update
schema `BookUpdate` distinguishes an unset field from a field explicitly set
to null (`model_dump(exclude_unset=True)`), so each patch field is an
`Option (Option α)`: `none` = unset, `some none` = explicit null,
`some (some v)` = set to `v`. Python `raise ValueError(msg)` is modelled as
`Except.error msg`.
-/

namespace BookBuddy

/-- ReadingStatus enum from app/schemas/book.py. -/
inductive ReadingStatus
  | toRead
  | reading
  | completed
deriving DecidableEq

/-- The string value of a ReadingStatus member (`.value` in Python). -/
def ReadingStatus.value : ReadingStatus → String
  | .toRead => "To Read"
  | .reading => "Reading"
  | .completed => "Completed"

/-- ReadingStatus(status) construction from a raw string, as a total function. -/
def ReadingStatus.fromValue : String → Option ReadingStatus
  | "To Read" => some .toRead
  | "Reading" => some .reading
  | "Completed" => some .completed
  | _ => none

/-- BookGenre enum from app/schemas/book.py. -/
inductive BookGenre
  | fiction
  | nonFiction
  | mystery
  | sciFi
  | biography
  | fantasy
  | romance
  | thriller
  | selfHelp
  | history
  | other
deriving DecidableEq

/-- The string value of a BookGenre member (`.value` in Python). -/
def BookGenre.value : BookGenre → String
  | .fiction => "Fiction"
  | .nonFiction => "Non-Fiction"
  | .mystery => "Mystery"
  | .sciFi => "Sci-Fi"
  | .biography => "Biography"
  | .fantasy => "Fantasy"
  | .romance => "Romance"
  | .thriller => "Thriller"
  | .selfHelp => "Self-Help"
  | .history => "History"
  | .other => "Other"

/-- A row of the book table. Status and genre are stored as raw strings, as
the repository writes `.value` of the enums; string columns that a patch can
set to NULL are `Option String`. -/
structure Book where
  id : Nat
  user_id : Nat
  title : Option String
  author : Option String
  genre : Option String
  start_date : Option Nat
  end_date : Option Nat
  status : Option String
  notes : Option String
  rating : Option Int
deriving DecidableEq

/-- BookCreate schema: title/author/genre required, status defaults to To Read. -/
structure BookCreate where
  title : String
  author : String
  genre : BookGenre
  start_date : Option Nat := none
  end_date : Option Nat := none
  status : ReadingStatus := .toRead
  notes : Option String := none
  rating : Option Int := none
deriving DecidableEq

/-- BookUpdate schema with pydantic set-tracking: outer `none` = field absent
from the patch, `some none` = field explicitly null, `some (some v)` = value. -/
structure BookUpdate where
  title : Option (Option String) := none
  author : Option (Option String) := none
  genre : Option (Option BookGenre) := none
  start_date : Option (Option Nat) := none
  end_date : Option (Option Nat) := none
  status : Option (Option ReadingStatus) := none
  notes : Option (Option String) := none
  rating : Option (Option Int) := none
deriving DecidableEq

/-- BookRepository.get_by_id_and_user: first row matching both the book id and
the user id (ownership-scoped lookup). -/
def BookRepository.get_by_id_and_user (db : List Book) (book_id user_id : Nat) : Option Book :=
  db.find? (fun b => b.id == book_id && b.user_id == user_id)

/-- BookRepository.create: insert a new row built from the BookCreate data.
`genre` and `status` are enum members (required fields, hence truthy in
Python), so the `x.value if x else ...` expressions always take `.value`. -/
def BookRepository.create (db : List Book) (book_data : BookCreate) (user_id next_id : Nat) :
    Book × List Book :=
  let db_book : Book :=
    { id := next_id
      user_id := user_id
      title := some book_data.title
      author := some book_data.author
      genre := some book_data.genre.value
      start_date := book_data.start_date
      end_date := book_data.end_date
      status := some book_data.status.value
      notes := book_data.notes
      rating := book_data.rating }
  (db_book, db ++ [db_book])

/-- The field loop of BookRepository.update: apply exactly the fields present
in `model_dump(exclude_unset=True)` to the row, converting enum members to
their string values. An unset field (outer `none`) is left untouched; an
explicitly-null field (`some none`) is written as NULL. -/
def BookRepository.apply_fields (db_book : Book) (book_data : BookUpdate) : Book :=
  { db_book with
    title := book_data.title.getD db_book.title
    author := book_data.author.getD db_book.author
    genre := (book_data.genre.map (fun v => v.map BookGenre.value)).getD db_book.genre
    start_date := book_data.start_date.getD db_book.start_date
    end_date := book_data.end_date.getD db_book.end_date
    status := (book_data.status.map (fun v => v.map ReadingStatus.value)).getD db_book.status
    notes := book_data.notes.getD db_book.notes
    rating := book_data.rating.getD db_book.rating }

/-- Replace the first row matching (book_id, user_id): the in-place mutation of
the object returned by get_by_id_and_user. -/
def replace_first (db : List Book) (book_id user_id : Nat) (b2 : Book) : List Book :=
  match db with
  | [] => []
  | b :: rest =>
    if b.id == book_id && b.user_id == user_id then b2 :: rest
    else b :: replace_first rest book_id user_id b2

/-- BookRepository.update: ownership-scoped lookup, then apply only the fields
present in the patch; returns none (and leaves the table unchanged) when no
row matches. -/
def BookRepository.update (db : List Book) (book_id user_id : Nat) (book_data : BookUpdate) :
    Option Book × List Book :=
  match BookRepository.get_by_id_and_user db book_id user_id with
  | none => (none, db)
  | some db_book =>
    let updated := BookRepository.apply_fields db_book book_data
    (some updated, replace_first db book_id user_id updated)

/-- BookRepository.count_by_user. -/
def BookRepository.count_by_user (db : List Book) (user_id : Nat) : Nat :=
  (db.filter (fun b => b.user_id == user_id)).length

/-- BookRepository.count_by_status. -/
def BookRepository.count_by_status (db : List Book) (user_id : Nat) (status : String) : Nat :=
  (db.filter (fun b => b.user_id == user_id && b.status == some status)).length

/-- The genre group-by of BookRepository.get_stats: one (genre, count) row per
distinct genre value occurring among the user's books. -/
def BookRepository.genre_rows (db : List Book) (user_id : Nat) : List (Option String × Nat) :=
  (((db.filter (fun b => b.user_id == user_id)).map (fun b => b.genre)).dedup).map
    (fun g => (g, (db.filter (fun b => b.user_id == user_id && b.genre == g)).length))

/-- BookStats response shape. -/
structure BookStats where
  total_books : Nat
  to_read : Nat
  reading : Nat
  completed : Nat
  genres : List (Option String × Nat)

/-- BookRepository.get_stats. -/
def BookRepository.get_stats (db : List Book) (user_id : Nat) : BookStats :=
  { total_books := BookRepository.count_by_user db user_id
    to_read := BookRepository.count_by_status db user_id "To Read"
    reading := BookRepository.count_by_status db user_id "Reading"
    completed := BookRepository.count_by_status db user_id "Completed"
    genres := BookRepository.genre_rows db user_id }

/-- The date check shared by add_book and update_book:
`if start and end and end < start` (dates are always truthy in Python, so
truthiness coincides with being non-None). -/
def BookService.dates_bad (start_d end_d : Option Nat) : Bool :=
  match start_d, end_d with
  | some s, some e => e < s
  | _, _ => false

/-- The rating check shared by add_book and update_book:
`rating is not None and (rating < 1 or rating > 5)`. -/
def BookService.rating_bad (rating : Option Int) : Bool :=
  match rating with
  | some r => r < 1 || r > 5
  | none => false

/-- BookService.add_book: validate dates, auto-override status to Completed
when an end date is present, validate rating, then persist. -/
def BookService.add_book (db : List Book) (book_data : BookCreate) (user_id next_id : Nat) :
    Except String (Book × List Book) :=
  if BookService.dates_bad book_data.start_date book_data.end_date then
    .error "End date cannot be before start date"
  else
    let book_data :=
      if book_data.end_date.isSome && !(book_data.status == ReadingStatus.completed) then
        { book_data with status := ReadingStatus.completed }
      else book_data
    if BookService.rating_bad book_data.rating then
      .error "Rating must be between 1 and 5"
    else
      .ok (BookRepository.create db book_data user_id next_id)

/-- BookService.get_book: ownership-scoped single lookup. -/
def BookService.get_book (db : List Book) (book_id user_id : Nat) : Option Book :=
  BookRepository.get_by_id_and_user db book_id user_id

/-- `start = book_data.start_date or existing_book.start_date` (line 173):
attribute access on the patch yields None both for an unset and for an
explicitly-null field, and Python `or` falls back on None. -/
def BookService.effective_start (book_data : BookUpdate) (existing_book : Book) : Option Nat :=
  (Option.join book_data.start_date).orElse (fun _ => existing_book.start_date)

/-- `end = book_data.end_date or existing_book.end_date` (line 174). -/
def BookService.effective_end (book_data : BookUpdate) (existing_book : Book) : Option Nat :=
  (Option.join book_data.end_date).orElse (fun _ => existing_book.end_date)

/-- BookService.update_book: ownership check, effective-date validation,
rating validation (attribute access, so an explicitly-null rating skips the
check), then the repository partial update. -/
def BookService.update_book (db : List Book) (book_id user_id : Nat) (book_data : BookUpdate) :
    Except String (Option Book × List Book) :=
  match BookRepository.get_by_id_and_user db book_id user_id with
  | none => .error "Book not found"
  | some existing_book =>
    if BookService.dates_bad (BookService.effective_start book_data existing_book)
        (BookService.effective_end book_data existing_book) then
      .error "End date cannot be before start date"
    else if BookService.rating_bad (Option.join book_data.rating) then
      .error "Rating must be between 1 and 5"
    else
      .ok (BookRepository.update db book_id user_id book_data)

/-- The valid status list of BookService. -/
def valid_statuses : List String := ["To Read", "Reading", "Completed"]

/-- BookService.update_status: validate the status string, look the book up,
build a patch carrying the new status, auto-set start date to today when
transitioning into Reading with no start date, auto-set end date to today when
transitioning into Completed with no end date, then apply the partial update.
`not book.start_date` is `isNone`, dates being truthy. -/
def BookService.update_status (db : List Book) (book_id user_id : Nat) (status : String)
    (today : Nat) : Except String (Option Book × List Book) :=
  if !(valid_statuses.contains status) then
    .error "Invalid status. Must be one of: To Read, Reading, Completed"
  else
    match BookRepository.get_by_id_and_user db book_id user_id with
    | none => .error "Book not found"
    | some book =>
      let update_data : BookUpdate := { status := (ReadingStatus.fromValue status).map some }
      let update_data :=
        if status == "Reading" && book.start_date.isNone then
          { update_data with start_date := some (some today) }
        else update_data
      let update_data :=
        if status == "Completed" && book.end_date.isNone then
          { update_data with end_date := some (some today) }
        else update_data
      .ok (BookRepository.update db book_id user_id update_data)

/-- BookService.get_statistics: passes the repository stats through unchanged. -/
def BookService.get_statistics (db : List Book) (user_id : Nat) : BookStats :=
  BookRepository.get_stats db user_id

/-- A row of the user table. -/
structure User where
  id : Nat
  username : String
  email : String
  password_hash : String
deriving DecidableEq

/-- UserCreate schema. -/
structure UserCreate where
  username : String
  email : String
  password : String
deriving DecidableEq

/-- UserRepository.get_by_email. -/
def UserRepository.get_by_email (db : List User) (email : String) : Option User :=
  db.find? (fun u => u.email == email)

/-- UserRepository.get_by_username. -/
def UserRepository.get_by_username (db : List User) (username : String) : Option User :=
  db.find? (fun u => u.username == username)

/-- UserRepository.create. -/
def UserRepository.create (db : List User) (username email password_hash : String)
    (next_id : Nat) : User × List User :=
  let user : User :=
    { id := next_id, username := username, email := email, password_hash := password_hash }
  (user, db ++ [user])

/-- AuthService.register: email-conflict check, then username-conflict check,
then hash the password and persist. The bcrypt hash primitive is an external
collaborator, passed in as a function. -/
def AuthService.register (hash_password : String → String) (db : List User)
    (user_data : UserCreate) (next_id : Nat) : Except String (User × List User) :=
  match UserRepository.get_by_email db user_data.email with
  | some _ => .error "Email already registered"
  | none =>
    match UserRepository.get_by_username db user_data.username with
    | some _ => .error "Username already taken"
    | none =>
      .ok (UserRepository.create db user_data.username user_data.email
        (hash_password user_data.password) next_id)

/-- AuthService.login: lookup by email then password verification, raising the
same "Invalid email or password" message on both failure paths. The bcrypt
verify primitive is an external collaborator, passed in as a function. -/
def AuthService.login (verify_password : String → String → Bool) (db : List User)
    (email password : String) : Except String User :=
  match UserRepository.get_by_email db email with
  | none => .error "Invalid email or password"
  | some user =>
    if !(verify_password password user.password_hash) then
      .error "Invalid email or password"
    else
      .ok user

/-- C1: for every book id and every pair of distinct user ids ownerA and
ownerB, if the book with that id is owned by ownerB then getBook(id, ownerA)
returns none: a book lookup never resolves a book id across a different
user's scope. -/
theorem getBook_ownership_isolation (db : List Book) (id ownerA ownerB : Nat)
    (hne : ownerA ≠ ownerB)
    (hown : ∀ b ∈ db, b.id = id → b.user_id = ownerB) :
    BookService.get_book db id ownerA = none := by
  unfold BookService.get_book BookRepository.get_by_id_and_user
  rw [List.find?_eq_none]
  intro b hb hpb
  simp only [Bool.and_eq_true, beq_iff_eq] at hpb
  exact hne (hpb.2.symm.trans (hown b hb hpb.1))

/-- Sample data for the C1 witness: a single book owned by user 2. -/
def c1Book : Book :=
  { id := 1, user_id := 2, title := some "Dune", author := some "Herbert"
    genre := some "Fiction", start_date := none, end_date := none
    status := some "To Read", notes := none, rating := none }

/-- C1 witness: user 1 cannot resolve user 2's book. -/
theorem getBook_ownership_isolation_witness :
    (1 : Nat) ≠ 2 ∧ BookService.get_book [c1Book] 1 1 = none :=
  ⟨by decide, getBook_ownership_isolation [c1Book] 1 1 2 (by decide) (by decide)⟩

/-- C2: when end_date is set and the declared status is not Completed,
add_book persists the book with status Completed, overriding the supplied
status; the created row is in the resulting table. -/
theorem addBook_end_date_overrides_status (db : List Book) (book_data : BookCreate)
    (user_id next_id : Nat) (e : Nat) (b : Book) (db2 : List Book)
    (he : book_data.end_date = some e)
    (hs : book_data.status ≠ ReadingStatus.completed)
    (hok : BookService.add_book db book_data user_id next_id = .ok (b, db2)) :
    b.status = some "Completed" ∧ b ∈ db2 := by
  simp only [BookService.add_book] at hok
  have hcond : (book_data.end_date.isSome && !(book_data.status == ReadingStatus.completed))
      = true := by
    rw [he]; simp [hs]
  rw [hcond] at hok
  simp only [if_true] at hok
  split at hok
  · exact absurd hok (by simp)
  · split at hok
    · exact absurd hok (by simp)
    · simp only [BookRepository.create, Except.ok.injEq, Prod.mk.injEq] at hok
      obtain ⟨hb, hdb⟩ := hok
      subst hb
      subst hdb
      exact ⟨rfl, by simp⟩

/-- Creation input for the C2 witness: end date given, status declared To Read. -/
def c2Create : BookCreate :=
  { title := "Dune", author := "Herbert", genre := .fiction, end_date := some 5 }

/-- The row add_book persists for c2Create: status forced to Completed. -/
def c2Book : Book :=
  { id := 1, user_id := 7, title := some "Dune", author := some "Herbert"
    genre := some "Fiction", start_date := none, end_date := some 5
    status := some "Completed", notes := none, rating := none }

/-- C2 witness: the concrete creation ends with status Completed. -/
theorem addBook_end_date_overrides_status_witness :
    c2Create.end_date = some 5 ∧ c2Create.status ≠ ReadingStatus.completed ∧
    c2Book.status = some "Completed" ∧ c2Book ∈ [c2Book] :=
  ⟨rfl, by decide,
    addBook_end_date_overrides_status [] c2Create 7 1 5 c2Book [c2Book] rfl (by decide) rfl⟩

/-- C3: with both dates given, add_book fails with the date ValidationError
when end < start — whatever the status and the rating are, showing the date
check runs before the status override and the rating check — and passes date
validation when end = start, succeeding whenever the rating check also
passes. -/
theorem addBook_date_check (db : List Book) (book_data : BookCreate) (user_id next_id : Nat)
    (s e : Nat) (hs : book_data.start_date = some s) (he : book_data.end_date = some e) :
    (e < s → BookService.add_book db book_data user_id next_id =
        .error "End date cannot be before start date") ∧
    (e = s → BookService.rating_bad book_data.rating = false →
        ∃ b db2, BookService.add_book db book_data user_id next_id = .ok (b, db2)) := by
  constructor
  · intro hlt
    simp only [BookService.add_book, BookService.dates_bad, hs, he]
    rw [if_pos (by simpa using hlt)]
  · intro heq hr
    simp only [BookService.add_book, BookService.dates_bad, hs, he]
    rw [if_neg (by simp [heq])]
    split
    · rename_i hcond
      rw [if_neg (by simpa using hr)]
      exact ⟨_, _, rfl⟩
    · rw [if_neg (by simpa using hr)]
      exact ⟨_, _, rfl⟩

/-- Creation input for the C3 witness. -/
def c3Create : BookCreate :=
  { title := "Dune", author := "Herbert", genre := .fiction
    start_date := some 4, end_date := some 4 }

/-- C3 witness: equal dates pass date validation and the creation succeeds. -/
theorem addBook_date_check_witness :
    c3Create.start_date = some 4 ∧ c3Create.end_date = some 4 ∧
    ∃ b db2, BookService.add_book [] c3Create 7 1 = .ok (b, db2) :=
  ⟨rfl, rfl, (addBook_date_check [] c3Create 7 1 4 4 rfl rfl).2 rfl rfl⟩

/-- C4: for a book the caller owns, update_status to Reading sets start_date
to today only when it is currently unset, and update_status to Completed sets
end_date to today only when it is currently unset; a non-null start_date or
end_date is never overwritten, the other date is untouched, and the To Read
transition touches neither date. -/
theorem updateStatus_date_side_effects (db : List Book) (book_id user_id today : Nat)
    (book : Book) (hb : BookRepository.get_by_id_and_user db book_id user_id = some book) :
    (∃ b2 db2,
      BookService.update_status db book_id user_id "Reading" today = .ok (some b2, db2) ∧
      b2.start_date = (if book.start_date.isSome then book.start_date else some today) ∧
      b2.end_date = book.end_date ∧ b2.status = some "Reading") ∧
    (∃ b3 db3,
      BookService.update_status db book_id user_id "Completed" today = .ok (some b3, db3) ∧
      b3.end_date = (if book.end_date.isSome then book.end_date else some today) ∧
      b3.start_date = book.start_date ∧ b3.status = some "Completed") ∧
    (∃ b4 db4,
      BookService.update_status db book_id user_id "To Read" today = .ok (some b4, db4) ∧
      b4.start_date = book.start_date ∧ b4.end_date = book.end_date ∧
      b4.status = some "To Read") := by
  have hrr : (("Reading" : String) == "Reading") = true := by decide
  have hrc : (("Reading" : String) == "Completed") = false := by decide
  have hcr : (("Completed" : String) == "Reading") = false := by decide
  have hcc : (("Completed" : String) == "Completed") = true := by decide
  have htr : (("To Read" : String) == "Reading") = false := by decide
  have htc : (("To Read" : String) == "Completed") = false := by decide
  refine ⟨?_, ?_, ?_⟩
  · simp only [BookService.update_status, BookRepository.update, hb, hrr, hrc,
      Bool.true_and, Bool.false_and, if_false, ReadingStatus.fromValue, Option.map_some]
    rw [if_neg (by decide)]
    by_cases hsd : book.start_date.isNone
    · rw [if_pos hsd]
      refine ⟨_, _, rfl, ?_, rfl, rfl⟩
      cases hsdn : book.start_date with
      | none => simp [BookRepository.apply_fields]
      | some d => rw [hsdn] at hsd; simp at hsd
    · rw [if_neg hsd]
      refine ⟨_, _, rfl, ?_, rfl, rfl⟩
      cases hsdn : book.start_date with
      | none => rw [hsdn] at hsd; simp at hsd
      | some d => simp [BookRepository.apply_fields, hsdn]
  · simp only [BookService.update_status, BookRepository.update, hb, hcr, hcc,
      Bool.true_and, Bool.false_and, if_false, ReadingStatus.fromValue, Option.map_some]
    rw [if_neg (by decide)]
    by_cases hed : book.end_date.isNone
    · rw [if_pos hed]
      refine ⟨_, _, rfl, ?_, rfl, rfl⟩
      cases hedn : book.end_date with
      | none => simp [BookRepository.apply_fields]
      | some d => rw [hedn] at hed; simp at hed
    · rw [if_neg hed]
      refine ⟨_, _, rfl, ?_, rfl, rfl⟩
      cases hedn : book.end_date with
      | none => rw [hedn] at hed; simp at hed
      | some d => simp [BookRepository.apply_fields, hedn]
  · simp only [BookService.update_status, BookRepository.update, hb, htr, htc,
      Bool.true_and, Bool.false_and, if_false, ReadingStatus.fromValue, Option.map_some]
    rw [if_neg (by decide)]
    exact ⟨_, _, rfl, rfl, rfl, rfl⟩

/-- Sample book for the C4 witness: start date already set, no end date. -/
def c4Book : Book :=
  { id := 3, user_id := 9, title := some "Dune", author := some "Herbert"
    genre := some "Fiction", start_date := some 11, end_date := none
    status := some "To Read", notes := none, rating := none }

/-- C4 witness: on a book with an existing start date and no end date, the
Reading transition keeps start_date = 11 and the Completed transition sets
end_date to today. -/
theorem updateStatus_date_side_effects_witness :
    BookRepository.get_by_id_and_user [c4Book] 3 9 = some c4Book ∧
    ((∃ b2 db2,
      BookService.update_status [c4Book] 3 9 "Reading" 20 = .ok (some b2, db2) ∧
      b2.start_date = (if c4Book.start_date.isSome then c4Book.start_date else some 20) ∧
      b2.end_date = c4Book.end_date ∧ b2.status = some "Reading") ∧
    (∃ b3 db3,
      BookService.update_status [c4Book] 3 9 "Completed" 20 = .ok (some b3, db3) ∧
      b3.end_date = (if c4Book.end_date.isSome then c4Book.end_date else some 20) ∧
      b3.start_date = c4Book.start_date ∧ b3.status = some "Completed") ∧
    (∃ b4 db4,
      BookService.update_status [c4Book] 3 9 "To Read" 20 = .ok (some b4, db4) ∧
      b4.start_date = c4Book.start_date ∧ b4.end_date = c4Book.end_date ∧
      b4.status = some "To Read")) :=
  ⟨by decide, updateStatus_date_side_effects [c4Book] 3 9 20 c4Book (by decide)⟩

/-- C5: register reports an email conflict whenever the email is taken — in
particular also when the username is taken too — and reports a username
conflict only once the email check has passed: the email check precedes the
username check. -/
theorem register_conflict_order (hashp : String → String) (db : List User)
    (user_data : UserCreate) (next_id : Nat) :
    (∀ u, UserRepository.get_by_email db user_data.email = some u →
      AuthService.register hashp db user_data next_id = .error "Email already registered") ∧
    (UserRepository.get_by_email db user_data.email = none →
      ∀ u, UserRepository.get_by_username db user_data.username = some u →
      AuthService.register hashp db user_data next_id = .error "Username already taken") := by
  constructor
  · intro u hu
    simp only [AuthService.register, hu]
  · intro he u hu
    simp only [AuthService.register, he, hu]

/-- Existing user for the C5 witness: both the email and the username clash. -/
def c5User : User :=
  { id := 1, username := "alice", email := "a@x.com", password_hash := "h" }

/-- Registration input for the C5 witness. -/
def c5Input : UserCreate := { username := "alice", email := "a@x.com", password := "pw123456" }

/-- C5 witness: when both the email and the username conflict, the email
conflict is the one reported. -/
theorem register_conflict_order_witness :
    UserRepository.get_by_email [c5User] c5Input.email = some c5User ∧
    AuthService.register (fun p => p) [c5User] c5Input 2 = .error "Email already registered" :=
  ⟨by decide, (register_conflict_order (fun p => p) [c5User] c5Input 2).1 c5User (by decide)⟩

/-- C6: login fails with the same error value "Invalid email or password"
both when no user has the given email and when a user exists but password
verification fails, so the two causes are indistinguishable from the error. -/
theorem login_indistinguishable_failures (verify : String → String → Bool) (db : List User)
    (email password : String) :
    (UserRepository.get_by_email db email = none →
      AuthService.login verify db email password = .error "Invalid email or password") ∧
    (∀ u, UserRepository.get_by_email db email = some u →
      verify password u.password_hash = false →
      AuthService.login verify db email password = .error "Invalid email or password") := by
  constructor
  · intro he
    simp only [AuthService.login, he]
  · intro u hu hv
    simp only [AuthService.login, hu, hv, Bool.not_false, if_true]

/-- Existing user for the C6 witness. -/
def c6User : User :=
  { id := 1, username := "alice", email := "a@x.com", password_hash := "h" }

/-- C6 witness: a wrong password for a known email and an unknown email
produce the identical error. -/
theorem login_indistinguishable_failures_witness :
    UserRepository.get_by_email [c6User] "b@x.com" = none ∧
    AuthService.login (fun _ _ => false) [c6User] "b@x.com" "pw" =
      .error "Invalid email or password" ∧
    AuthService.login (fun _ _ => false) [c6User] "a@x.com" "pw" =
      .error "Invalid email or password" :=
  ⟨by decide,
    (login_indistinguishable_failures (fun _ _ => false) [c6User] "b@x.com" "pw").1 (by decide),
    (login_indistinguishable_failures (fun _ _ => false) [c6User] "a@x.com" "pw").2 c6User
      (by decide) rfl⟩

/-- C7: a supplied rating outside [1,5] makes add_book and update_book fail
with the rating ValidationError (once the earlier date check passes), while a
rating of exactly 1 or exactly 5 passes the rating check on both operations. -/
theorem rating_range_validation (db : List Book) (cd : BookCreate) (ud : BookUpdate)
    (user_id next_id book_id : Nat) (r : Int) :
    (cd.rating = some r → (r < 1 ∨ 5 < r) →
      BookService.dates_bad cd.start_date cd.end_date = false →
      BookService.add_book db cd user_id next_id = .error "Rating must be between 1 and 5") ∧
    ((cd.rating = some 1 ∨ cd.rating = some 5) →
      BookService.dates_bad cd.start_date cd.end_date = false →
      (BookService.add_book db cd user_id next_id).isOk = true) ∧
    (∀ bk, BookRepository.get_by_id_and_user db book_id user_id = some bk →
      Option.join ud.rating = some r → (r < 1 ∨ 5 < r) →
      BookService.dates_bad (BookService.effective_start ud bk)
        (BookService.effective_end ud bk) = false →
      BookService.update_book db book_id user_id ud =
        .error "Rating must be between 1 and 5") ∧
    (∀ bk, BookRepository.get_by_id_and_user db book_id user_id = some bk →
      (Option.join ud.rating = some 1 ∨ Option.join ud.rating = some 5) →
      BookService.dates_bad (BookService.effective_start ud bk)
        (BookService.effective_end ud bk) = false →
      (BookService.update_book db book_id user_id ud).isOk = true) := by
  refine ⟨?_, ?_, ?_, ?_⟩
  · intro hr hout hd
    have hrb : BookService.rating_bad cd.rating = true := by
      rcases hout with h | h <;> simp [BookService.rating_bad, hr, h]
    simp only [BookService.add_book, hd, Bool.false_eq_true, if_false]
    split <;> simp_all [BookService.rating_bad]
  · intro h1 hd
    have hrb : BookService.rating_bad cd.rating = false := by
      rcases h1 with h | h <;> simp [BookService.rating_bad, h]
    simp only [BookService.add_book, hd, Bool.false_eq_true, if_false]
    split <;> simp_all [BookService.rating_bad, Except.isOk, Except.toBool]
  · intro bk hbk hr hout hd
    have hr2 : (ud.rating.bind fun a => a) = some r := hr
    simp only [BookService.update_book, hbk, hd, Bool.false_eq_true, if_false]
    rcases hout with h | h <;> simp [BookService.rating_bad, hr2, h, Option.join]
  · intro bk hbk h1 hd
    simp only [BookService.update_book, hbk, hd, Bool.false_eq_true, if_false]
    rcases h1 with h | h <;>
      simp [BookService.rating_bad, Option.join, show (ud.rating.bind fun a => a) = _ from h,
        Except.isOk, Except.toBool]

/-- Creation input for the C7 witness with an out-of-range rating. -/
def c7CreateBad : BookCreate :=
  { title := "Dune", author := "Herbert", genre := .fiction, rating := some 9 }

/-- Creation input for the C7 witness with the boundary rating 5. -/
def c7CreateGood : BookCreate :=
  { title := "Dune", author := "Herbert", genre := .fiction, rating := some 5 }

/-- C7 witness: rating 9 fails creation with the rating error, rating 5
succeeds. -/
theorem rating_range_validation_witness :
    BookService.add_book [] c7CreateBad 7 1 = .error "Rating must be between 1 and 5" ∧
    (BookService.add_book [] c7CreateGood 7 1).isOk = true :=
  ⟨(rating_range_validation [] c7CreateBad {} 7 1 0 9).1 rfl (by decide) rfl,
   (rating_range_validation [] c7CreateGood {} 7 1 0 9).2.1 (Or.inr rfl) rfl⟩

/-- C8: update_book fails with NotFoundError when no book matches the
ownership-scoped lookup; it re-validates the date invariant on the effective
dates (patch value when present, else the stored value) and fails with the
date ValidationError when the effective end precedes the effective start;
and on success it applies exactly the fields present in the patch, leaving
every absent field at its stored value. -/
theorem updateBook_semantics (db : List Book) (book_id user_id : Nat) (ud : BookUpdate) :
    (BookRepository.get_by_id_and_user db book_id user_id = none →
      BookService.update_book db book_id user_id ud = .error "Book not found") ∧
    (∀ bk s e2, BookRepository.get_by_id_and_user db book_id user_id = some bk →
      BookService.effective_start ud bk = some s →
      BookService.effective_end ud bk = some e2 → e2 < s →
      BookService.update_book db book_id user_id ud =
        .error "End date cannot be before start date") ∧
    (∀ bk res db2, BookRepository.get_by_id_and_user db book_id user_id = some bk →
      BookService.update_book db book_id user_id ud = .ok (res, db2) →
      res = some (BookRepository.apply_fields bk ud) ∧
      (ud.title = none → (BookRepository.apply_fields bk ud).title = bk.title) ∧
      (ud.author = none → (BookRepository.apply_fields bk ud).author = bk.author) ∧
      (ud.genre = none → (BookRepository.apply_fields bk ud).genre = bk.genre) ∧
      (ud.start_date = none → (BookRepository.apply_fields bk ud).start_date = bk.start_date) ∧
      (ud.end_date = none → (BookRepository.apply_fields bk ud).end_date = bk.end_date) ∧
      (ud.status = none → (BookRepository.apply_fields bk ud).status = bk.status) ∧
      (ud.notes = none → (BookRepository.apply_fields bk ud).notes = bk.notes) ∧
      (ud.rating = none → (BookRepository.apply_fields bk ud).rating = bk.rating) ∧
      (∀ v, ud.title = some v → (BookRepository.apply_fields bk ud).title = v) ∧
      (∀ v, ud.start_date = some v → (BookRepository.apply_fields bk ud).start_date = v) ∧
      (∀ v, ud.end_date = some v → (BookRepository.apply_fields bk ud).end_date = v) ∧
      (∀ v, ud.rating = some v → (BookRepository.apply_fields bk ud).rating = v) ∧
      (∀ v, ud.notes = some v → (BookRepository.apply_fields bk ud).notes = v)) := by
  refine ⟨?_, ?_, ?_⟩
  · intro hn
    simp only [BookService.update_book, hn]
  · intro bk s e2 hbk hes hee hlt
    simp only [BookService.update_book, hbk]
    rw [if_pos (by simp [BookService.dates_bad, hes, hee, hlt])]
  · intro bk res db2 hbk hok
    simp only [BookService.update_book, hbk] at hok
    split at hok
    · exact absurd hok (by simp)
    · split at hok
      · exact absurd hok (by simp)
      · simp only [BookRepository.update, hbk, Except.ok.injEq, Prod.mk.injEq] at hok
        refine ⟨hok.1.symm, ?_, ?_, ?_, ?_, ?_, ?_, ?_, ?_, ?_, ?_, ?_, ?_, ?_⟩ <;>
          intros <;> simp_all [BookRepository.apply_fields]

/-- C8 witness: updating a book in an empty table reports Book not found. -/
theorem updateBook_semantics_witness :
    BookRepository.get_by_id_and_user [] 1 1 = none ∧
    BookService.update_book [] 1 1 {} = .error "Book not found" :=
  ⟨rfl, (updateBook_semantics [] 1 1 {}).1 rfl⟩

/-- C9: the genre breakdown of get_statistics contains a (genre, count) row
exactly for the genre values occurring among the user's books, each counted
over that user's books only; genres with zero books are omitted. -/
theorem getStatistics_genre_counts (db : List Book) (user_id : Nat) (g : Option String)
    (n : Nat) :
    (g, n) ∈ (BookService.get_statistics db user_id).genres ↔
      ((∃ b ∈ db, b.user_id = user_id ∧ b.genre = g) ∧
        n = (db.filter (fun b => b.user_id == user_id && b.genre == g)).length) := by
  simp only [BookService.get_statistics, BookRepository.get_stats, BookRepository.genre_rows,
    List.mem_map, List.mem_dedup, List.mem_filter, Prod.mk.injEq, beq_iff_eq]
  constructor
  · rintro ⟨g2, ⟨b, ⟨hbdb, hbu⟩, hbg⟩, hg, hn⟩
    subst hg
    exact ⟨⟨b, hbdb, hbu, hbg⟩, hn.symm⟩
  · rintro ⟨⟨b, hbdb, hbu, hbg⟩, hn⟩
    exact ⟨g, ⟨b, ⟨hbdb, hbu⟩, hbg⟩, rfl, hn.symm⟩

/-- C10: the repository applies an explicitly-null patch field, clearing the
stored value to null, while an absent field leaves the stored value
untouched; the service-level effective-date computation treats an
explicitly-null patch date exactly like an absent one, falling back to the
stored date. -/
theorem explicit_null_patch_semantics (bk : Book) (ud : BookUpdate) :
    (ud.start_date = some none → (BookRepository.apply_fields bk ud).start_date = none) ∧
    (ud.end_date = some none → (BookRepository.apply_fields bk ud).end_date = none) ∧
    (ud.notes = some none → (BookRepository.apply_fields bk ud).notes = none) ∧
    (ud.rating = some none → (BookRepository.apply_fields bk ud).rating = none) ∧
    (ud.start_date = none → (BookRepository.apply_fields bk ud).start_date = bk.start_date) ∧
    (ud.end_date = none → (BookRepository.apply_fields bk ud).end_date = bk.end_date) ∧
    (ud.start_date = some none → BookService.effective_start ud bk = bk.start_date) ∧
    (ud.start_date = none → BookService.effective_start ud bk = bk.start_date) ∧
    (ud.end_date = some none → BookService.effective_end ud bk = bk.end_date) ∧
    (ud.end_date = none → BookService.effective_end ud bk = bk.end_date) := by
  refine ⟨?_, ?_, ?_, ?_, ?_, ?_, ?_, ?_, ?_, ?_⟩ <;> intro h <;>
    simp [BookRepository.apply_fields, BookService.effective_start,
      BookService.effective_end, h, Option.orElse]

/-- Stored row for the C10 witness: both dates set. -/
def c10Book : Book :=
  { id := 3, user_id := 9, title := some "Dune", author := some "Herbert"
    genre := some "Fiction", start_date := some 3, end_date := some 8
    status := some "Reading", notes := none, rating := none }

/-- Patch for the C10 witness: start_date explicitly null. -/
def c10Patch : BookUpdate := { start_date := some none }

/-- C10 witness: the explicitly-null start date is cleared by the repository
but the effective start used for validation falls back to the stored date. -/
theorem explicit_null_patch_semantics_witness :
    c10Patch.start_date = some none ∧
    (BookRepository.apply_fields c10Book c10Patch).start_date = none ∧
    BookService.effective_start c10Patch c10Book = c10Book.start_date :=
  ⟨rfl, (explicit_null_patch_semantics c10Book c10Patch).1 rfl,
    (explicit_null_patch_semantics c10Book c10Patch).2.2.2.2.2.2.1 rfl⟩

end BookBuddy
